import Mathlib

/-!
Shallow embedding of the anand-jeweller-backend gold-rate service.

The relational store is modelled as explicit lists of rows; each HTTP
handler becomes a pure function from the store (and the request data it
reads) to a response value together with the store it leaves behind.
Timestamps are integers counting seconds of IST local time (the code pins
pytz Asia/Kolkata everywhere, a fixed-offset zone), so the python
operations `- timedelta(days=d)` and `.replace(hour=0, minute=0, second=0,
microsecond=0)` become integer subtraction and flooring to a multiple of
86400.  The nine numeric rate fields are carried as rationals: no handler
computes with them, they are stored and echoed back verbatim.
-/

/-- Seconds in one day; granularity of the midnight truncation performed by
the history endpoints. -/
def secondsPerDay : Int := 86400

/-- One row of the gold_rates table (models.GoldRate): nine numeric fields,
a release timestamp and a created_at timestamp, plus the integer primary
key.  models.py puts a UniqueConstraint on release_datetime. -/
structure GoldRate where
  id : Nat
  gold_24k_new_rate : Rat
  gold_24k_exchange_rate : Rat
  gold_24k_making_charges : Rat
  gold_22k_new_rate : Rat
  gold_22k_exchange_rate : Rat
  gold_22k_making_charges : Rat
  gold_18k_new_rate : Rat
  gold_18k_exchange_rate : Rat
  gold_18k_making_charges : Rat
  release_datetime : Int
  created_at : Int
deriving DecidableEq

/-- Ordering used by every `order_by(desc(GoldRate.release_datetime))`
query: a row sorts before another when its release timestamp is at least
as large. -/
def tsGe (a b : GoldRate) : Prop := b.release_datetime ≤ a.release_datetime

instance : DecidableRel tsGe := fun a b =>
  inferInstanceAs (Decidable (b.release_datetime ≤ a.release_datetime))

instance : IsTotal GoldRate tsGe :=
  ⟨fun a b => le_total b.release_datetime a.release_datetime⟩

instance : IsTrans GoldRate tsGe :=
  ⟨fun _ _ _ h₁ h₂ => le_trans h₂ h₁⟩

/-- Embedding of `ORDER BY release_datetime DESC` on a query result. -/
def sortByTsDesc (l : List GoldRate) : List GoldRate :=
  List.insertionSort tsGe l

/-- routers/api.py get_latest_rates (GET /api/gold-rates/latest): filter
out rows whose release timestamp is after the current IST time, order the
rest descending by release timestamp and take the first. -/
def get_latest_rates (table : List GoldRate) (now : Int) : Option GoldRate :=
  (sortByTsDesc (table.filter (fun r => r.release_datetime ≤ now))).head?

/-- routers/api.py get_current_rates_simple (GET /api/gold-rates/current):
order all rows descending by release timestamp and take the first; no
future-date filter is applied. -/
def get_current_rates_simple (table : List GoldRate) : Option GoldRate :=
  (sortByTsDesc table).head?

/-- routers/api.py get_history_by_days: rows whose release timestamp lies
between midnight of (now minus (days-1) days) and now, most recent first.
Each returned row is then reformatted into the nested per-purity
dictionary; the reformatting is a per-row projection, so the function is
modelled as returning the queried rows. -/
def get_history_by_days (table : List GoldRate) (now days : Int) : List GoldRate :=
  sortByTsDesc (table.filter (fun r =>
    secondsPerDay * ((now - (days - 1) * secondsPerDay).fdiv secondsPerDay)
        ≤ r.release_datetime
      && r.release_datetime ≤ now))

/-- routers/api.py get_history_by_purity (GET
/api/gold-rates/history/purity): reject an unknown purity with HTTP 400,
otherwise run the same date-range query as get_history_by_days; the
per-purity reformatting is again a per-row projection. -/
def get_history_by_purity (table : List GoldRate) (now days : Int)
    (purity : String) : Except Nat (List GoldRate) :=
  if purity ∈ [("24K" : String), ("22K" : String), ("18K" : String)] then
    .ok (sortByTsDesc (table.filter (fun r =>
      secondsPerDay * ((now - (days - 1) * secondsPerDay).fdiv secondsPerDay)
          ≤ r.release_datetime
        && r.release_datetime ≤ now)))
  else
    .error 400

/-- Python exception raised by the pagination arithmetic. -/
inductive PyError where
  | zeroDivision
deriving DecidableEq

/-- The pagination block of the GET /api/gold-rates/all response. -/
structure PaginationInfo where
  current_page : Int
  total_pages : Int
  total_records : Int
  records_per_page : Int
  has_next : Bool
  has_previous : Bool
deriving DecidableEq

/-- Pagination computation of routers/api.py get_all_rates: total_pages is
the python floor division (total_count + limit - 1) // limit, which raises
ZeroDivisionError when limit = 0; has_next is page < total_pages and
has_previous is page > 1.  Python // is flooring division, Int.fdiv.  The
row slice handed to the response (offset/limit on the ordered query) does
not feed back into these numbers and is not modelled here. -/
def get_all_rates_pagination (total_count : Nat) (page limit : Int) :
    Except PyError PaginationInfo :=
  if limit = 0 then .error .zeroDivision
  else
    let total_pages := ((total_count : Int) + limit - 1).fdiv limit
    .ok { current_page := page
          total_pages := total_pages
          total_records := (total_count : Int)
          records_per_page := limit
          has_next := decide (page < total_pages)
          has_previous := decide (1 < page) }

/-- Responses a gold-rate submission can produce, across the two write
surfaces.  The HTML form handler answers a duplicate with a re-rendered
form carrying the duplicate message; the JSON handler never produces that
response, and a commit that violates the UniqueConstraint of models.py
surfaces as an uncaught IntegrityError. -/
inductive RateSubmitOutcome where
  | redirect
  | formDuplicateError
  | createdJson
  | integrityError
deriving DecidableEq

/-- routers/admin.py add_gold_rate (POST /admin/gold-rates/add): query for
an existing row with exactly the submitted release timestamp; if one
exists, re-render the add form with the duplicate error and leave the
table alone, otherwise insert the new row and redirect. -/
def add_gold_rate (table : List GoldRate) (new : GoldRate) :
    RateSubmitOutcome × List GoldRate :=
  match table.find? (fun r => r.release_datetime == new.release_datetime) with
  | some _ => (.formDuplicateError, table)
  | none => (.redirect, table ++ [new])

/-- routers/admin_api.py create_gold_rate (POST /api/admin/gold-rates):
builds the row and commits with no duplicate check of its own; the
UniqueConstraint on release_datetime in models.py makes the commit fail
with an IntegrityError when a row with the same timestamp exists, and the
handler does not catch it. -/
def create_gold_rate (table : List GoldRate) (new : GoldRate) :
    RateSubmitOutcome × List GoldRate :=
  if table.any (fun r => r.release_datetime == new.release_datetime) then
    (.integrityError, table)
  else
    (.createdJson, table ++ [new])

/-- Responses of the two delete handlers. -/
inductive DeleteOutcome where
  | redirect
  | deletedMsg
  | notFound404
deriving DecidableEq

/-- routers/admin.py delete_gold_rate (GET /admin/gold-rates/delete/id):
look the row up by primary key; 404 when absent, otherwise delete that row
and redirect to the list page. -/
def delete_gold_rate_admin (table : List GoldRate) (rid : Nat) :
    DeleteOutcome × List GoldRate :=
  match table.find? (fun r => r.id == rid) with
  | none => (.notFound404, table)
  | some _ => (.redirect, table.eraseP (fun r => r.id == rid))

/-- routers/admin_api.py delete_gold_rate (DELETE
/api/admin/gold-rates/rate_id): same lookup and delete, answering with a
success message instead of a redirect. -/
def delete_gold_rate_api (table : List GoldRate) (rid : Nat) :
    DeleteOutcome × List GoldRate :=
  match table.find? (fun r => r.id == rid) with
  | none => (.notFound404, table)
  | some _ => (.deletedMsg, table.eraseP (fun r => r.id == rid))

/-- Role strings for admin_users.role; values added by
migrate_user_roles_simple.py (super_admin is the column default, the
migration seeds a contact_manager account). -/
def superAdminRole : String := ("super_admin")

/-- Restricted role limited to contact-enquiry management. -/
def contactManagerRole : String := ("contact_manager")

/-- One row of the admin_users table (models.AdminUser plus the role
column added by migrate_user_roles_simple.py). -/
structure AdminUser where
  id : Nat
  username : String
  password_hash : String
  role : String
deriving DecidableEq

/-- Claims carried by a decoded JWT payload: subject, user id and role,
each of which jwt_auth.py reads with dict.get and may therefore be
absent. -/
structure JwtPayload where
  sub : Option String
  user_id : Option Nat
  role : Option String
deriving DecidableEq

/-- A bearer token as jose.jwt.decode sees it: decodeOk is false exactly
when decoding raises JWTError (bad signature or expired token), and
payload is the claim set obtained when decoding succeeds. -/
structure BearerToken where
  decodeOk : Bool
  payload : JwtPayload
deriving DecidableEq

/-- jwt_auth.py JWTAuth.verify_token: decode the token, returning None on
JWTError; on success return the payload unless its subject claim is
missing, in which case also return None. -/
def verify_token (t : BearerToken) : Option JwtPayload :=
  if t.decodeOk then
    match t.payload.sub with
    | none => none
    | some _ => some t.payload
  else none

/-- Outcome of an authentication/authorization dependency: either the
resolved user or the HTTPException status it raises. -/
inductive AuthResult where
  | ok (u : AdminUser)
  | httpError (status : Nat)
deriving DecidableEq

/-- jwt_auth.py get_current_user: verify the bearer token (401 when
verification fails or the subject claim is missing) and resolve the
subject to an admin_users row (401 when no row matches). -/
def jwt_get_current_user (users : List AdminUser) (t : BearerToken) : AuthResult :=
  match verify_token t with
  | none => .httpError 401
  | some p =>
    match p.sub with
    | none => .httpError 401
    | some uname =>
      match users.find? (fun u => u.username == uname) with
      | none => .httpError 401
      | some u => .ok u

/-- jwt_auth.py get_current_admin_user, the gate on every /api/admin
operation: it returns the user resolved by jwt_get_current_user with no
role check (the source comments that all authenticated users are
considered admins for now). -/
def get_current_admin_user (users : List AdminUser) (t : BearerToken) : AuthResult :=
  match jwt_get_current_user users t with
  | .ok u => .ok u
  | .httpError s => .httpError s

/-- The HTTPBearer scheme instantiated at jwt_auth.py line 23 and placed
in front of get_current_user: with its default auto_error, a request whose
Authorization header is missing or does not carry usable Bearer
credentials is answered 403 Not authenticated before the handler's own
code runs; otherwise the bearer token is handed through.  The request's
header is modelled as the bearer token it carries, if any. -/
def http_bearer (header : Option BearerToken) : Except Nat BearerToken :=
  match header with
  | none => .error 403
  | some t => .ok t

/-- The dependency chain a request must pass on every /api/admin route:
the HTTPBearer extraction followed by jwt_auth.py get_current_user. -/
def jwt_request_auth (users : List AdminUser) (header : Option BearerToken) :
    AuthResult :=
  match http_bearer header with
  | .error s => .httpError s
  | .ok t => jwt_get_current_user users t

/-- The session store a request carries (auth.py writes user_id, username
and user_role into it on login). -/
structure SessionData where
  user_id : Option Nat
  username : Option String
  user_role : Option String
deriving DecidableEq

/-- auth.py get_current_user: 401 when the session has no user id, 401
when the id matches no admin_users row, otherwise the row. -/
def session_get_current_user (users : List AdminUser) (s : SessionData) : AuthResult :=
  match s.user_id with
  | none => .httpError 401
  | some uid =>
    match users.find? (fun u => u.id == uid) with
    | none => .httpError 401
    | some u => .ok u

/-- auth.py require_super_admin: resolve the session user, then 403 unless
the role is super_admin. -/
def require_super_admin (users : List AdminUser) (s : SessionData) : AuthResult :=
  match session_get_current_user users s with
  | .ok u => if u.role = superAdminRole then .ok u else .httpError 403
  | .httpError e => .httpError e

/-- auth.py require_contact_access: resolve the session user, then 403
unless the role is super_admin or contact_manager. -/
def require_contact_access (users : List AdminUser) (s : SessionData) : AuthResult :=
  match session_get_current_user users s with
  | .ok u =>
      if u.role ∈ [superAdminRole, contactManagerRole] then .ok u
      else .httpError 403
  | .httpError e => .httpError e

/-- One row of the stores table (models.Store plus the map_link column
added by migrate_add_map_link_to_stores.py). -/
structure Store where
  id : Nat
  store_name : String
  phone_number : Option String
  store_address : String
  store_image : Option String
  youtube_link : Option String
  map_link : Option String
  timings : String
  created_at : Int
deriving DecidableEq

/-- Request body of POST /api/contact-enquiries (routers/api.py
ContactEnquiryCreate); optional fields default as in the pydantic
model. -/
structure ContactEnquiryCreate where
  name : Option String
  phone_number : String
  email : Option String
  subject : Option String
  preferred_store : Option String
  preferred_date_time : Option String
  no_of_people : Option Int
  message : Option String
deriving DecidableEq

/-- One row of the contact_enquiries table (models.ContactEnquiry plus the
columns added by migrate_add_contact_fields.py), holding exactly what the
handler inserts. -/
structure ContactEnquiry where
  id : Nat
  name : Option String
  phone_number : String
  email : Option String
  subject : Option String
  preferred_store : Option String
  preferred_date_time : Option String
  no_of_people : Option Int
  message : Option String
  created_at : Int
deriving DecidableEq

/-- Result of POST /api/contact-enquiries: an HTTPException carrying a
status and detail string, or the created row. -/
inductive EnquiryResult where
  | httpError (status : Nat) (detail : String)
  | created (e : ContactEnquiry)
deriving DecidableEq

/-- routers/api.py create_contact_enquiry: look the preferred store up by
name (the SQLAlchemy comparison with a NULL preferred_store matches no
row, store_name being NOT NULL); when no store matches, raise 400 with the
comma-joined list of every store name and leave the table alone; otherwise
insert the row. -/
def create_contact_enquiry (stores : List Store) (enqs : List ContactEnquiry)
    (req : ContactEnquiryCreate) (newId : Nat) (now : Int) :
    EnquiryResult × List ContactEnquiry :=
  let store_match : Option Store :=
    match req.preferred_store with
    | none => none
    | some v => stores.find? (fun s => s.store_name == v)
  match store_match with
  | none =>
      (.httpError 400
        (("Invalid store name. Available stores: ") ++
          String.intercalate (", ") (stores.map Store.store_name)), enqs)
  | some _ =>
      let e : ContactEnquiry :=
        { id := newId
          name := req.name
          phone_number := req.phone_number
          email := req.email
          subject := req.subject
          preferred_store := req.preferred_store
          preferred_date_time := req.preferred_date_time
          no_of_people := req.no_of_people
          message := req.message
          created_at := now }
      (.created e, enqs ++ [e])

/-- Row builder for concrete store states: nine fixed sample figures, the
given primary key and release timestamp. -/
def mkRate (id : Nat) (ts : Int) : GoldRate :=
  { id := id
    gold_24k_new_rate := 100
    gold_24k_exchange_rate := 95
    gold_24k_making_charges := 5
    gold_22k_new_rate := 90
    gold_22k_exchange_rate := 85
    gold_22k_making_charges := 4
    gold_18k_new_rate := 70
    gold_18k_exchange_rate := 65
    gold_18k_making_charges := 3
    release_datetime := ts
    created_at := 0 }

/-- A concrete store row for concrete instantiations. -/
def demoStore : Store :=
  { id := 1
    store_name := ("Anand Jewels MG Road")
    phone_number := none
    store_address := ("Indore")
    store_image := none
    youtube_link := none
    map_link := none
    timings := ("Mon-Sat: 10:00 AM - 8:00 PM")
    created_at := 0 }

/-- A concrete enquiry request whose preferred store matches no store
row. -/
def demoBadEnquiry : ContactEnquiryCreate :=
  { name := some ("A Customer")
    phone_number := ("9876543210")
    email := none
    subject := some ("Contact enquiry")
    preferred_store := some ("No Such Store")
    preferred_date_time := some ("2025-01-01 10:00")
    no_of_people := some 1
    message := some ("NaN") }

/-- An admin_users row whose role string is neither super_admin nor
contact_manager. -/
def guestUser : AdminUser :=
  { id := 7
    username := ("guest")
    password_hash := ("hash")
    role := ("visitor") }

/-- A bearer token that decodes successfully to guestUser's subject. -/
def guestToken : BearerToken :=
  { decodeOk := true
    payload := { sub := some ("guest"), user_id := some 7, role := some ("visitor") } }

/-! ## Helper lemmas -/

/-- A row surviving the descending sort came from the input list. -/
theorem mem_of_mem_sortByTsDesc {l : List GoldRate} {r : GoldRate}
    (h : r ∈ sortByTsDesc l) : r ∈ l :=
  (List.perm_insertionSort tsGe l).mem_iff.mp h

/-- Membership is preserved by the descending sort. -/
theorem mem_sortByTsDesc_iff {l : List GoldRate} {r : GoldRate} :
    r ∈ sortByTsDesc l ↔ r ∈ l :=
  (List.perm_insertionSort tsGe l).mem_iff

/-- The head of the descending sort has the largest release timestamp. -/
theorem head_sortByTsDesc_max {l : List GoldRate} {c : GoldRate}
    (h : (sortByTsDesc l).head? = some c) :
    ∀ x ∈ l, x.release_datetime ≤ c.release_datetime := by
  intro x hx
  have hsorted : List.Sorted tsGe (sortByTsDesc l) :=
    List.sorted_insertionSort tsGe l
  have hx' : x ∈ sortByTsDesc l := mem_sortByTsDesc_iff.mpr hx
  cases hl : sortByTsDesc l with
  | nil => rw [hl] at h; cases h
  | cons a t =>
      rw [hl] at h hx' hsorted
      have ha : a = c := by injection h
      subst ha
      rcases List.mem_cons.mp hx' with hxa | hxt
      · subst hxa; exact le_refl _
      · exact (List.pairwise_cons.mp hsorted).1 x hxt

/-- Python floor division (a + b - 1) // b computes the rational ceiling of
a / b whenever the divisor is positive. -/
theorem fdiv_add_sub_one_eq_ceil (a : Int) {b : Int} (hb : 1 ≤ b) :
    (a + b - 1).fdiv b = ⌈(a : ℚ) / (b : ℚ)⌉ := by
  have hb0 : (0 : Int) < b := hb
  have hbQ : (0 : ℚ) < (b : ℚ) := by exact_mod_cast hb0
  rw [Int.fdiv_eq_ediv _ hb0.le]
  have hmod := Int.ediv_add_emod (a + b - 1) b
  have h1 : 0 ≤ (a + b - 1) % b := Int.emod_nonneg _ hb0.ne'
  have h2 : (a + b - 1) % b < b := Int.emod_lt_of_pos _ hb0
  symm
  rw [Int.ceil_eq_iff]
  constructor
  · rw [lt_div_iff₀ hbQ]
    have hz : ((a + b - 1) / b - 1) * b < a := by nlinarith [hmod, h1, h2]
    exact_mod_cast hz
  · rw [div_le_iff₀ hbQ]
    have hz : a ≤ (a + b - 1) / b * b := by nlinarith [hmod, h1, h2]
    exact_mod_cast hz

/-- Deleting the first row with a given primary key from a table whose ids
are pairwise distinct removes exactly the rows carrying that key. -/
theorem eraseP_id_eq_filter (rid : Nat) :
    ∀ (table : List GoldRate), (table.map GoldRate.id).Nodup →
      table.eraseP (fun r => r.id == rid) = table.filter (fun r => r.id ≠ rid)
  | [], _ => rfl
  | a :: t, h => by
    rw [List.map_cons, List.nodup_cons] at h
    obtain ⟨h1, h2⟩ := h
    by_cases ha : a.id = rid
    · have hfilter : List.filter (fun r => !decide (r.id = rid)) t = t := by
        apply List.filter_eq_self.mpr
        intro x hx
        by_cases hxid : x.id = rid
        · exact absurd (List.mem_map.mpr ⟨x, hx, by rw [hxid, ha]⟩) h1
        · simp [hxid]
      simp [List.eraseP_cons, List.filter_cons, ha, hfilter]
    · simp [List.eraseP_cons, List.filter_cons, ha, eraseP_id_eq_filter rid t h2]

/-- Any row produced by the filtered-and-sorted latest query carries a
release timestamp at or before the query time. -/
theorem latest_result_not_future {table : List GoldRate} {now : Int}
    {r : GoldRate} (h : get_latest_rates table now = some r) :
    r.release_datetime ≤ now := by
  unfold get_latest_rates at h
  have hmem := mem_of_mem_sortByTsDesc (List.mem_of_mem_head? h)
  have := List.mem_filter.mp hmem
  simpa using this.2

/-! ## Claims -/

/-- C2: for every store state and current time, the snapshot returned by
GET /api/gold-rates/latest has a release timestamp that is not strictly
after the current server time. -/
theorem c2_latest_never_future (table : List GoldRate) (now : Int)
    (r : GoldRate) (h : get_latest_rates table now = some r) :
    r.release_datetime ≤ now :=
  latest_result_not_future h

/-- C2 witness: a concrete two-row store with one future row, queried at
time 150, yields the non-future row. -/
theorem c2_witness :
    get_latest_rates [mkRate 1 100, mkRate 2 200] 150 = some (mkRate 1 100) ∧
    (mkRate 1 100).release_datetime ≤ 150 :=
  ⟨by decide, c2_latest_never_future [mkRate 1 100, mkRate 2 200] 150 (mkRate 1 100) (by decide)⟩

/-- C10: GET /api/gold-rates/current applies no future-date filter: when a
row is strictly in the future, /current answers with the row of maximum
release timestamp overall, which is future-dated, while /latest never
answers with that row. -/
theorem c10_current_returns_future (table : List GoldRate) (now : Int)
    (r : GoldRate) (hr : r ∈ table) (hfut : now < r.release_datetime) :
    ∃ c, get_current_rates_simple table = some c ∧
      now < c.release_datetime ∧
      (∀ x ∈ table, x.release_datetime ≤ c.release_datetime) ∧
      (∀ y, get_latest_rates table now = some y → y ≠ c) := by
  cases hl : sortByTsDesc table with
  | nil =>
      exact absurd (mem_sortByTsDesc_iff.mpr hr) (by rw [hl]; simp)
  | cons c t =>
      have hhead : (sortByTsDesc table).head? = some c := by rw [hl]; rfl
      have hmax := head_sortByTsDesc_max hhead
      have hcfut : now < c.release_datetime := lt_of_lt_of_le hfut (hmax r hr)
      refine ⟨c, ?_, hcfut, hmax, ?_⟩
      · unfold get_current_rates_simple
        exact hhead
      · intro y hy hyc
        have := latest_result_not_future hy
        rw [hyc] at this
        exact absurd hcfut (not_lt.mpr this)

/-- C10 witness: with rows at times 100 and 200 and current time 150,
/current answers with the future row at 200 and /latest does not. -/
theorem c10_witness :
    ∃ c, get_current_rates_simple [mkRate 1 100, mkRate 2 200] = some c ∧
      (150 : Int) < c.release_datetime ∧
      (∀ x ∈ [mkRate 1 100, mkRate 2 200], x.release_datetime ≤ c.release_datetime) ∧
      (∀ y, get_latest_rates [mkRate 1 100, mkRate 2 200] 150 = some y → y ≠ c) :=
  c10_current_returns_future [mkRate 1 100, mkRate 2 200] 150 (mkRate 2 200)
    (by decide) (by decide)

/-- C7: the history endpoints return exactly those snapshots whose release
timestamp lies between midnight of (now minus (days-1) days) and now: a
row is in the response of get_history_by_days, or of a successful
get_history_by_purity call, exactly when it is a table row inside that
closed interval. -/
theorem c7_history_exact_range (table : List GoldRate) (now days : Int)
    (r : GoldRate) :
    (r ∈ get_history_by_days table now days ↔
      r ∈ table ∧
      secondsPerDay * ((now - (days - 1) * secondsPerDay).fdiv secondsPerDay)
          ≤ r.release_datetime ∧
      r.release_datetime ≤ now) ∧
    (∀ purity l, get_history_by_purity table now days purity = .ok l →
      (r ∈ l ↔
        r ∈ table ∧
        secondsPerDay * ((now - (days - 1) * secondsPerDay).fdiv secondsPerDay)
            ≤ r.release_datetime ∧
        r.release_datetime ≤ now)) := by
  constructor
  · unfold get_history_by_days
    rw [mem_sortByTsDesc_iff, List.mem_filter]
    simp [and_assoc]
  · intro purity l hok
    unfold get_history_by_purity at hok
    split at hok
    · have hl : l = sortByTsDesc (table.filter (fun x =>
          decide (secondsPerDay *
              ((now - (days - 1) * secondsPerDay).fdiv secondsPerDay)
            ≤ x.release_datetime)
          && decide (x.release_datetime ≤ now))) := by
        injection hok with h
        exact h.symm
      rw [hl, mem_sortByTsDesc_iff, List.mem_filter]
      simp [and_assoc]
    · cases hok

/-- C7 witness: a single row at time 100 with current time 200 and a
7-day window is returned by both history endpoints. -/
theorem c7_witness :
    mkRate 1 100 ∈ get_history_by_days [mkRate 1 100] 200 7 ∧
    mkRate 1 100 ∈ ([mkRate 1 100] : List GoldRate) := by
  constructor
  · exact (c7_history_exact_range [mkRate 1 100] 200 7 (mkRate 1 100)).1.mpr
      ⟨by decide, by decide, by decide⟩
  · exact ((c7_history_exact_range [mkRate 1 100] 200 7 (mkRate 1 100)).2
      ("24K") [mkRate 1 100] (by rfl)).mpr ⟨by decide, by decide, by decide⟩

/-- C5 counterexample: at five records, page 1 and limit -1 — reachable,
the limit query parameter being an unbounded int and the SQLite backend
accepting negative LIMIT/OFFSET — the handler reports total_pages =
(5 - 2) // (-1) = -3, while the integer ceiling of 5 / (-1) is -5, so the
claimed ceiling identity fails on a page/limit pair the claim covers. -/
theorem c5_cex :
    get_all_rates_pagination 5 1 (-1) =
      .ok { current_page := 1, total_pages := -3, total_records := 5,
            records_per_page := -1, has_next := false,
            has_previous := false } ∧
    ((-3 : Int) ≠ ⌈(5 : ℚ) / ((-1 : ℚ))⌉) := by
  constructor
  · rfl
  · have h : ((5 : ℚ) / ((-1 : ℚ))) = ((-5 : Int) : ℚ) := by norm_num
    rw [h, Int.ceil_intCast]
    decide

/-- C5 as amended: for every record count and every page with a positive
limit — negative limits escape the identity, see the counterexample — GET
/api/gold-rates/all reports total_pages equal to the integer ceiling of
the count divided by the limit, and has_next exactly when the current
page is strictly below total_pages. -/
theorem c5_pagination_ceiling (N : Nat) (page limit : Int) (h : 1 ≤ limit) :
    ∃ info, get_all_rates_pagination N page limit = .ok info ∧
      info.total_pages = ⌈(N : ℚ) / (limit : ℚ)⌉ ∧
      info.current_page = page ∧
      info.total_records = (N : Int) ∧
      (info.has_next = true ↔ info.current_page < info.total_pages) := by
  unfold get_all_rates_pagination
  rw [if_neg (by omega)]
  refine ⟨_, rfl, ?_, rfl, rfl, ?_⟩
  · exact fdiv_add_sub_one_eq_ceil (N : Int) h
  · simp

/-- C5 witness: five records at two per page give three pages, and page
two has a next page. -/
theorem c5_witness :
    ∃ info, get_all_rates_pagination 5 2 2 = .ok info ∧
      info.total_pages = ⌈(5 : ℚ) / (2 : ℚ)⌉ ∧
      info.current_page = 2 ∧
      info.total_records = (5 : Int) ∧
      (info.has_next = true ↔ info.current_page < info.total_pages) :=
  c5_pagination_ceiling 5 2 2 (by decide)

/-- C9 counterexample: the pagination computation also returns a result
for limit = -1, which is not ≥ 1, so returning a result does not require
the precondition limit ≥ 1. -/
theorem c9_cex :
    (∃ info, get_all_rates_pagination 5 1 (-1) = .ok info) ∧
    ¬ (1 ≤ (-1 : Int)) :=
  ⟨⟨_, rfl⟩, by decide⟩

/-- C9 as amended: the pagination computation of GET /api/gold-rates/all
divides by zero exactly when limit = 0 — the handler has no guard ruling
that out — and returns a result for every nonzero limit. -/
theorem c9_zero_division_iff (N : Nat) (page limit : Int) :
    get_all_rates_pagination N page limit = .error .zeroDivision ↔ limit = 0 := by
  unfold get_all_rates_pagination
  split
  · simp_all
  · simp_all

/-- C1 counterexample: a second submission with an already-present release
timestamp through the admin JSON API is not answered with the duplicate
error; it dies in an uncaught IntegrityError. -/
theorem c1_cex :
    (create_gold_rate [mkRate 1 100] (mkRate 2 100)).1 ≠
      RateSubmitOutcome.formDuplicateError ∧
    (create_gold_rate [mkRate 1 100] (mkRate 2 100)).1 =
      RateSubmitOutcome.integrityError := by
  exact ⟨by decide, by decide⟩

/-- C1 as amended: when a row with the submitted release timestamp already
exists, the HTML form handler rejects with the duplicate error and leaves
the table unchanged, while the admin JSON API handler — which performs no
duplicate check — fails with an uncaught IntegrityError from the unique
constraint, also leaving the table unchanged. -/
theorem c1_duplicate_timestamp (table : List GoldRate) (d : GoldRate)
    (h : ∃ r ∈ table, r.release_datetime = d.release_datetime) :
    add_gold_rate table d = (.formDuplicateError, table) ∧
    create_gold_rate table d = (.integrityError, table) := by
  obtain ⟨r, hr, hts⟩ := h
  constructor
  · unfold add_gold_rate
    cases hfind : table.find? (fun x => x.release_datetime == d.release_datetime) with
    | none =>
        exact absurd (List.find?_eq_none.mp hfind r hr) (by simp [hts])
    | some _ => rfl
  · unfold create_gold_rate
    rw [if_pos]
    exact List.any_eq_true.mpr ⟨r, hr, by simp [hts]⟩

/-- C1 witness: a concrete duplicate submission against a one-row table
exercises both rejection paths. -/
theorem c1_witness :
    add_gold_rate [mkRate 1 100] (mkRate 2 100) =
      (.formDuplicateError, [mkRate 1 100]) ∧
    create_gold_rate [mkRate 1 100] (mkRate 2 100) =
      (.integrityError, [mkRate 1 100]) :=
  c1_duplicate_timestamp [mkRate 1 100] (mkRate 2 100)
    ⟨mkRate 1 100, by decide, by decide⟩

/-- C8: deleting an id absent from the table answers 404 on both delete
surfaces and leaves the table exactly as it was; deleting a present id
(ids being unique, release of the primary key) removes exactly the row
carrying it. -/
theorem c8_delete_semantics (table : List GoldRate) (rid : Nat) :
    ((¬ ∃ r ∈ table, r.id = rid) →
      delete_gold_rate_admin table rid = (.notFound404, table) ∧
      delete_gold_rate_api table rid = (.notFound404, table)) ∧
    ((table.map GoldRate.id).Nodup → (∃ r ∈ table, r.id = rid) →
      (delete_gold_rate_admin table rid).1 = .redirect ∧
      (delete_gold_rate_api table rid).1 = .deletedMsg ∧
      (delete_gold_rate_admin table rid).2 =
        table.filter (fun x => x.id ≠ rid) ∧
      (delete_gold_rate_api table rid).2 =
        table.filter (fun x => x.id ≠ rid)) := by
  constructor
  · intro hne
    have hfind : table.find? (fun r => r.id == rid) = none :=
      List.find?_eq_none.mpr (fun x hx => by
        simp only [beq_iff_eq]
        exact fun he => hne ⟨x, hx, he⟩)
    constructor
    · unfold delete_gold_rate_admin
      rw [hfind]
    · unfold delete_gold_rate_api
      rw [hfind]
  · intro hnodup hex
    obtain ⟨r, hr, hid⟩ := hex
    cases hfind : table.find? (fun x => x.id == rid) with
    | none =>
        exact absurd (List.find?_eq_none.mp hfind r hr) (by simp [hid])
    | some u =>
        have herase := eraseP_id_eq_filter rid table hnodup
        refine ⟨?_, ?_, ?_, ?_⟩
        · unfold delete_gold_rate_admin
          rw [hfind]
        · unfold delete_gold_rate_api
          rw [hfind]
        · unfold delete_gold_rate_admin
          rw [hfind]
          exact herase
        · unfold delete_gold_rate_api
          rw [hfind]
          exact herase

/-- C8 witness: on a concrete two-row table, deleting id 1 removes exactly
that row and deleting the absent id 3 answers 404 with the table
untouched. -/
theorem c8_witness :
    delete_gold_rate_admin [mkRate 1 100, mkRate 2 200] 1 =
      (.redirect, [mkRate 2 200]) ∧
    delete_gold_rate_api [mkRate 1 100, mkRate 2 200] 3 =
      (.notFound404, [mkRate 1 100, mkRate 2 200]) := by
  constructor
  · have h := (c8_delete_semantics [mkRate 1 100, mkRate 2 200] 1).2
      (by decide) ⟨mkRate 1 100, by decide, by decide⟩
    exact Prod.ext h.1 (h.2.2.1.trans (by decide))
  · exact ((c8_delete_semantics [mkRate 1 100, mkRate 2 200] 3).1
      (by decide)).2

/-- C3 counterexample: a valid token for an authenticated user whose role
is neither super_admin nor contact_manager passes get_current_admin_user,
the gate on every /api/admin operation, so the JWT-protected admin
surface admits callers whose role matches no allowed set. -/
theorem c3_cex :
    get_current_admin_user [guestUser] guestToken = .ok guestUser ∧
    guestUser.role ≠ superAdminRole ∧
    guestUser.role ≠ contactManagerRole := by
  refine ⟨by decide, by decide, by decide⟩

/-- C3 as amended: the session-gated dependencies enforce roles —
require_super_admin admits only super_admin and require_contact_access
only super_admin or contact_manager — while the JWT gate of the /api/admin
surface checks authentication only: any user reachable from a valid token
is admitted regardless of its role string. -/
theorem c3_role_enforcement (users : List AdminUser) (s : SessionData)
    (t : BearerToken) (u : AdminUser) :
    (require_super_admin users s = .ok u → u.role = superAdminRole) ∧
    (require_contact_access users s = .ok u →
      u.role = superAdminRole ∨ u.role = contactManagerRole) ∧
    (∀ uname, t.decodeOk = true → t.payload.sub = some uname →
      users.find? (fun x => x.username == uname) = some u →
      get_current_admin_user users t = .ok u) := by
  refine ⟨?_, ?_, ?_⟩
  · intro h
    unfold require_super_admin at h
    split at h
    · split at h
      · rename_i hrole
        injection h with h
        subst h
        exact hrole
      · cases h
    · cases h
  · intro h
    unfold require_contact_access at h
    split at h
    · split at h
      · rename_i hrole
        injection h with h
        subst h
        simpa using hrole
      · cases h
    · cases h
  · intro uname hdec hsub hfind
    simp [get_current_admin_user, jwt_get_current_user, verify_token,
      hdec, hsub, hfind]

/-- C3 witness: the amended theorem applied to the concrete guest user and
its valid token. -/
theorem c3_witness :
    get_current_admin_user [guestUser] guestToken = .ok guestUser :=
  (c3_role_enforcement [guestUser]
      { user_id := none, username := none, user_role := none }
      guestToken guestUser).2.2 ("guest") rfl rfl (by decide)

/-- C4 counterexample: a request reaching an /api/admin route with no
bearer token at all is answered 403 Not authenticated by the HTTPBearer
dependency, not the 401 the claim asserts for a missing token. -/
theorem c4_cex :
    jwt_request_auth [guestUser] none = .httpError 403 ∧
    (403 : Nat) ≠ 401 := by
  exact ⟨rfl, by decide⟩

/-- C4 as amended: a missing or invalid session yields 401; token
verification rejects whenever decoding fails or the decoded payload lacks
a subject claim, and a request presenting such a token is answered 401 by
the /api/admin dependency chain; a request presenting no bearer token at
all, however, is answered 403 by HTTPBearer before the handler runs; a
session-authenticated user whose role is outside the allowed set is
answered 403 by require_super_admin.  Every such failure terminates the
request. -/
theorem c4_auth_failure_codes (users : List AdminUser) (s : SessionData)
    (t : BearerToken) (uid : Nat) (u : AdminUser) :
    (s.user_id = none → session_get_current_user users s = .httpError 401) ∧
    (s.user_id = some uid → users.find? (fun x => x.id == uid) = none →
      session_get_current_user users s = .httpError 401) ∧
    (t.decodeOk = false → verify_token t = none) ∧
    (t.payload.sub = none → verify_token t = none) ∧
    (verify_token t = none → jwt_request_auth users (some t) = .httpError 401) ∧
    (jwt_request_auth users none = .httpError 403) ∧
    (session_get_current_user users s = .ok u → u.role ≠ superAdminRole →
      require_super_admin users s = .httpError 403) := by
  refine ⟨?_, ?_, ?_, ?_, ?_, ?_, ?_⟩
  · intro h
    simp [session_get_current_user, h]
  · intro h hfind
    simp [session_get_current_user, h, hfind]
  · intro h
    simp [verify_token, h]
  · intro h
    unfold verify_token
    rw [h]
    split <;> rfl
  · intro h
    simp [jwt_request_auth, http_bearer, jwt_get_current_user, h]
  · rfl
  · intro hsess hrole
    simp [require_super_admin, hsess, hrole]

/-- C4 witness: concrete 401s for an empty session and for a request
presenting an undecodable token, a concrete 403 for a request presenting
no token, and a concrete 403 for an authenticated non-super_admin
session. -/
theorem c4_witness :
    session_get_current_user [guestUser]
      { user_id := none, username := none, user_role := none } =
        .httpError 401 ∧
    jwt_request_auth [guestUser]
      (some { decodeOk := false
              payload := { sub := some ("guest"), user_id := some 7,
                           role := some ("visitor") } }) = .httpError 401 ∧
    jwt_request_auth [guestUser] none = .httpError 403 ∧
    require_super_admin [guestUser]
      { user_id := some 7, username := some ("guest"),
        user_role := some ("visitor") } = .httpError 403 := by
  refine ⟨?_, ?_, ?_, ?_⟩
  · exact (c4_auth_failure_codes [guestUser]
      { user_id := none, username := none, user_role := none }
      guestToken 0 guestUser).1 rfl
  · exact (c4_auth_failure_codes [guestUser]
      { user_id := none, username := none, user_role := none }
      { decodeOk := false
        payload := { sub := some ("guest"), user_id := some 7,
                     role := some ("visitor") } } 0 guestUser).2.2.2.2.1 rfl
  · exact (c4_auth_failure_codes [guestUser]
      { user_id := none, username := none, user_role := none }
      guestToken 0 guestUser).2.2.2.2.2.1
  · exact (c4_auth_failure_codes [guestUser]
      { user_id := some 7, username := some ("guest"),
        user_role := some ("visitor") }
      guestToken 0 guestUser).2.2.2.2.2.2 (by decide) (by decide)

/-- C6: a POST /api/contact-enquiries request whose preferred store
matches no store row is answered 400 with the comma-joined list of every
store name, and the enquiry table is left unchanged. -/
theorem c6_enquiry_bad_store (stores : List Store)
    (enqs : List ContactEnquiry) (req : ContactEnquiryCreate)
    (newId : Nat) (now : Int)
    (h : ¬ ∃ s ∈ stores, req.preferred_store = some s.store_name) :
    create_contact_enquiry stores enqs req newId now =
      (.httpError 400
        (("Invalid store name. Available stores: ") ++
          String.intercalate (", ") (stores.map Store.store_name)), enqs) := by
  unfold create_contact_enquiry
  cases hp : req.preferred_store with
  | none => rfl
  | some v =>
      have hfind : stores.find? (fun s => s.store_name == v) = none :=
        List.find?_eq_none.mpr (fun s hs => by
          simp only [beq_iff_eq]
          exact fun he => h ⟨s, hs, by rw [hp, he]⟩)
      simp only [hfind]

/-- C6 witness: an enquiry naming a nonexistent store against a one-store
directory is rejected with 400 listing the one store name, creating no
row. -/
theorem c6_witness :
    create_contact_enquiry [demoStore] [] demoBadEnquiry 1 0 =
      (.httpError 400
        (("Invalid store name. Available stores: ") ++
          String.intercalate (", ") ([demoStore].map Store.store_name)), []) :=
  c6_enquiry_bad_store [demoStore] [] demoBadEnquiry 1 0 (by decide)
